import Mathlib

/-!
Shallow embedding of the 2ootbot repository (src/2ootbot.py, src/util.py):
a Reddit cross-posting bot.  Pure logic (caption trimming, tweet splitting,
cache scanning, validation, the media-resolution decision tree and the
dispatcher loop of main()) is translated directly from the Python source.
Network and filesystem effects (HTTP downloads, ffmpeg muxing, the Twitter
and Discord posting calls) are modelled by explicit oracles in a NetEnv
record, and download attempts are recorded as an explicit event list, so
that claims about "nothing was downloaded" or "destination A succeeded,
destination B failed" can be stated and decided.
-/

namespace Tootbot

/-- Python truthiness of an optional string (None and the empty string are
falsy), used for `if url:` in get_tweet_text. -/
def pyTruthyStr (o : Option String) : Bool :=
  match o with
  | none => false
  | some s => !s.isEmpty

/-- Python slice `l[:n]` on a list of characters: a negative bound counts
from the end (clamped at 0), a non-negative bound takes a prefix. -/
def pySliceTo (l : List Char) (n : Int) : List Char :=
  if n < 0 then l.take (l.length - (-n).toNat) else l.take n.toNat

/-- util.py trim_to_limit: if the text is longer than the limit, cut it at
`limit - 2` (Python slice semantics) and append one ellipsis character. -/
def trim_to_limit (text : String) (limit : Int) : String :=
  if limit < (text.length : Int) then
    String.mk (pySliceTo text.data (limit - 2)) ++ "…"
  else
    text

/-- Tags for the Python classes MediaFile / ImageFile / VideoFile. -/
inductive MFKind
  | base
  | image
  | video
  deriving DecidableEq, Repr

/-- util.py MediaFile (and its subclasses, distinguished by `kind`).
`type` is the MIME type attribute, `in_iteration` the flag used by the
__iter__/__next__ convenience methods.  `twitter_id` is 0 until the file
is uploaded; the local file name derived from the URL is abstracted to the
URL itself in `filepath` (no claim depends on name generation). -/
structure MediaFile where
  kind : MFKind
  url : String
  type : String
  filepath : Option String
  twitter_id : Nat
  in_iteration : Bool
  deriving DecidableEq, Repr

/-- MediaFile.__next__ : on a fresh object (flag false) it sets the flag
and yields the object itself; on the second call it resets the flag and
raises StopIteration (modelled as `none`). -/
def mediaFileNext (m : MediaFile) : Option MediaFile × MediaFile :=
  if m.in_iteration then
    (none, { m with in_iteration := false })
  else
    (some { m with in_iteration := true }, { m with in_iteration := true })

/-- Driving a `for` loop over a MediaFile (iter returns the object itself):
collect the yielded elements until StopIteration, with fuel. -/
def mediaFileIterate (m : MediaFile) : Nat → List MediaFile × MediaFile
  | 0 => ([], m)
  | n + 1 =>
    match mediaFileNext m with
    | (none, m2) => ([], m2)
    | (some x, m2) =>
      let rest := mediaFileIterate m2 n
      (x :: rest.1, rest.2)

/-- util.py split_tweet classification: `isinstance(file, VideoFile) or
file.type == "image/gif"`. -/
def isVideoOrGif (f : MediaFile) : Bool :=
  f.kind == MFKind.video || f.type == "image/gif"

/-- util.py ThreadTweet: one tweet of a thread. -/
structure ThreadTweet where
  index : Nat
  media : List MediaFile
  media_ids : List Nat
  text : String
  deriving DecidableEq, Repr

/-- ThreadTweet.__init__(index) with no first file. -/
def newThreadTweet (index : Nat) : ThreadTweet :=
  { index := index, media := [], media_ids := [], text := "" }

/-- ThreadTweet.__init__(index, first_file). -/
def threadTweetWith (index : Nat) (f : MediaFile) : ThreadTweet :=
  { index := index, media := [f], media_ids := [f.twitter_id], text := "" }

/-- ThreadTweet.add_media. -/
def addMedia (t : ThreadTweet) (f : MediaFile) : ThreadTweet :=
  { t with media := t.media ++ [f], media_ids := t.media_ids ++ [f.twitter_id] }

/-- One iteration of the `for file in media` loop of util.py split_tweet,
acting on the state (tweets, i).  The source indexes `tweets[i]`; out of
range access (which never happens, since i is always the last index) is
given the harmless default `newThreadTweet 0`. -/
def splitStep (st : List ThreadTweet × Nat) (file : MediaFile) :
    List ThreadTweet × Nat :=
  let tweets := st.1
  let i := st.2
  if isVideoOrGif file then
    if 1 ≤ (tweets.getD i (newThreadTweet 0)).media.length then
      (tweets ++ [threadTweetWith (i + 1) file] ++ [newThreadTweet (i + 2)], i + 2)
    else
      (tweets.set i (addMedia (tweets.getD i (newThreadTweet 0)) file)
        ++ [newThreadTweet (i + 1)], i + 1)
  else if 4 ≤ (tweets.getD i (newThreadTweet 0)).media.length then
    (tweets ++ [threadTweetWith (i + 1) file], i + 1)
  else
    (tweets.set i (addMedia (tweets.getD i (newThreadTweet 0)) file), i)

/-- The partition phase of util.py split_tweet: the media loop, before the
tweet texts are generated. -/
def split_units (media : List MediaFile) : List ThreadTweet :=
  (media.foldl splitStep ([newThreadTweet 0], 0)).1

/-- The configuration options of config.toml consulted by the code the
claims are about. -/
structure BotConfig where
  get_media : Bool
  only_get_media : Bool
  get_videos : Bool
  skip_link_posts : Bool
  skip_nsfw : Bool
  skip_stickied : Bool
  skip_spoilers : Bool
  post_to_twitter : Bool
  post_to_discord : Bool
  webhooks : List String
  link_in_main_tweet : Bool
  deriving DecidableEq, Repr

/-- One entry of submission.gallery_data["items"], together with the MIME
type `m` looked up in submission.media_metadata for its media_id.  The
model assumes the gallery metadata is well formed (the Python code would
fall out of the gallery branch via AttributeError otherwise). -/
structure GalleryItem where
  media_id : String
  m : String
  deriving DecidableEq, Repr

/-- The fields of a praw Submission that the translated code reads.
`thumbnail_height` is None or an integer in praw; `is_gallery` False also
covers a missing attribute (both take the non-gallery path). -/
structure Submission where
  id : String
  title : String
  selftext : String
  over_18 : Bool
  stickied : Bool
  spoiler : Bool
  is_gallery : Bool
  gallery_items : List GalleryItem
  thumbnail_height : Option Nat
  domain : String
  url : String
  deriving DecidableEq, Repr

/-- Python truthiness of submission.thumbnail_height (None and 0 falsy). -/
def thumbnailTruthy (th : Option Nat) : Bool :=
  match th with
  | none => false
  | some n => n != 0

/-- util.py error taxonomy, restricted to the TootbotError subclasses that
get_media can raise; main() catches every TootbotError alike. -/
inductive TbError
  | extraction (msg : String)
  | invalidSubmission (msg : String)
  deriving DecidableEq, Repr

/-- Whether an error is an InvalidSubmissionError. -/
def TbError.isInvalidSub : TbError → Bool
  | .invalidSubmission _ => true
  | .extraction _ => false

/-- The return type of util.py get_media:
MediaFile | list[MediaFile] | ExternalLink | None. -/
inductive MediaResult
  | noMedia
  | single (f : MediaFile)
  | multiple (fs : List MediaFile)
  | link (url : String)
  deriving DecidableEq, Repr

/-- Oracles for the network and the destination platforms.  `downloadOk`
says whether fetching a URL succeeds, `contentType` is the content-type
header served for it, `probe` is the GET on an unknown-domain URL (none =
the request itself failed), `twitterPost` whether posting a given
submission id to Twitter succeeds, and `discordPost` the number of
webhooks successfully posted to (none = the Discord block raised, which
main() catches). -/
structure NetEnv where
  downloadOk : String → Bool
  contentType : String → String
  probe : String → Option String
  twitterPost : String → Bool
  discordPost : String → Option Nat

/-- util.py get_file_ext: MIME type to file extension table. -/
def get_file_ext (mime_type : String) : String :=
  if mime_type == "image/jpeg" then ".jpg"
  else if mime_type == "image/png" then ".png"
  else if mime_type == "image/webp" then ".webp"
  else if mime_type == "image/gif" then ".gif"
  else if mime_type == "video/mp4" then ".mp4"
  else ""

/-- The i.redd.it URL derived for a gallery item:
`f"https://i.redd.it/{media_id}.{file_ext}"` with
`file_ext = filetype.split("/")[1]`. -/
def galleryUrl (it : GalleryItem) : String :=
  "https://i.redd.it/" ++ it.media_id ++ "." ++ (it.m.splitOn "/").getD 1 ""

/-- The ImageFile built and downloaded for one gallery item
(ImageFile.download stores the content-type header in `type`). -/
def galleryImage (env : NetEnv) (it : GalleryItem) : MediaFile :=
  { kind := MFKind.image, url := galleryUrl it,
    type := env.contentType (galleryUrl it),
    filepath := some (galleryUrl it), twitter_id := 0, in_iteration := false }

/-- The `for item in submission.gallery_data["items"]` loop of get_media:
download each gallery image in order, recording the download events; a
failed download raises ExtractionError (wrapped by ImageFile.download),
keeping the events made so far. -/
def downloadGallery (env : NetEnv) :
    List GalleryItem → Except TbError (List MediaFile) × List String
  | [] => (.ok [], [])
  | it :: rest =>
    if env.downloadOk (galleryUrl it) then
      match downloadGallery env rest with
      | (.ok fs, ds) => (.ok (galleryImage env it :: fs), galleryUrl it :: ds)
      | (.error e, ds) => (.error e, galleryUrl it :: ds)
    else
      (.error (.extraction "Error trying to download an image file."), [])

/-- The ImageFile built for an i.redd.it / i.reddituploads.com submission. -/
def redditImage (env : NetEnv) (s : Submission) : MediaFile :=
  { kind := MFKind.image, url := s.url, type := env.contentType s.url,
    filepath := some s.url, twitter_id := 0, in_iteration := false }

/-- The VideoFile built for a v.redd.it submission (VideoFile.__init__
sets type to "video/mp4"; the DASH download-and-mux procedure is a single
download event on the submission url here). -/
def redditVideo (s : Submission) : MediaFile :=
  { kind := MFKind.video, url := s.url, type := "video/mp4",
    filepath := some s.url, twitter_id := 0, in_iteration := false }

/-- The ImageFile built for an unknown-domain URL whose probed
content-type is an image type (the probed type passed to the constructor
is then overwritten by ImageFile.download from the response header). -/
def probedImage (env : NetEnv) (s : Submission) (_ct : String) : MediaFile :=
  { kind := MFKind.image, url := s.url, type := env.contentType s.url,
    filepath := some s.url, twitter_id := 0, in_iteration := false }

/-- util.py get_media, with the list of download events performed.  Note
that in the unknown-domain branch the source raises InvalidSubmissionError
inside a `try` whose `except BaseException` re-wraps it, so a disallowed
link post surfaces as ExtractionError, exactly as in the source. -/
def get_media (cfg : BotConfig) (env : NetEnv) (s : Submission) :
    Except TbError MediaResult × List String :=
  if s.is_gallery then
    if cfg.get_media == false then
      (.error (.invalidSubmission ("Submission " ++ s.id ++
        " contains media. Media is disabled in the config. Skipping")), [])
    else
      match downloadGallery env s.gallery_items with
      | (.ok fs, ds) => (.ok (.multiple fs), ds)
      | (.error e, ds) => (.error e, ds)
  else if !thumbnailTruthy s.thumbnail_height then
    if cfg.only_get_media == true then
      (.error (.invalidSubmission ("Submission " ++ s.id ++
        " contains no media. The config is set to only post submissions that contain media. Skipping")), [])
    else
      (.ok .noMedia, [])
  else if cfg.get_media == false then
    (.error (.invalidSubmission ("Submission " ++ s.id ++
      " contains media. Media is disabled in the config. Skipping")), [])
  else if s.domain == "i.redd.it" || s.domain == "i.reddituploads.com" then
    if env.downloadOk s.url then
      (.ok (.single (redditImage env s)), [s.url])
    else
      (.error (.extraction "Error trying to download an image file."), [])
  else if s.domain == "v.redd.it" then
    if cfg.get_videos == false then
      (.error (.invalidSubmission ("Submission " ++ s.id ++
        " is a video. Video downloading is disabled in the config. Skipping")), [])
    else if env.downloadOk s.url then
      (.ok (.single (redditVideo s)), [s.url])
    else
      (.error (.extraction "ffmpeg failed to download the video."), [])
  else
    match env.probe s.url with
    | none => (.error (.extraction ("Failed to query the unknown URL " ++ s.url ++ ".")), [])
    | some ct =>
      if ct.startsWith "image/" && get_file_ext ct != "" then
        if env.downloadOk s.url then
          (.ok (.single (probedImage env s ct)), [s.url])
        else
          (.error (.extraction ("Failed to query the unknown URL " ++ s.url ++ ".")), [])
      else if cfg.skip_link_posts == false then
        (.ok (.link s.url), [])
      else
        (.error (.extraction ("Failed to query the unknown URL " ++ s.url ++ ".")), [])

/-- Whether a get_media outcome is an InvalidSubmissionError. -/
def resultInvalidSub (r : Except TbError MediaResult) : Bool :=
  match r with
  | .error e => e.isInvalidSub
  | .ok _ => false

/-- util.py get_tweet_text.  Partial in the source: in the branch where
link_in_main_tweet is off, url is falsy and selftext is falsy, line 402
evaluates `trim_to_limit(text, 280)` with the local variable `text` never
assigned, raising UnboundLocalError; that branch is `none` here. -/
def get_tweet_text (cfg : BotConfig) (s : Submission) (url : Option String) :
    Option String :=
  if cfg.link_in_main_tweet then
    if pyTruthyStr url then
      some (trim_to_limit s.title 230 ++ " " ++ url.getD "" ++
        " (https://redd.it/" ++ s.id ++ ")")
    else if !s.selftext.isEmpty then
      some (trim_to_limit (s.title ++ "\n" ++ s.selftext) 256 ++
        "\nhttps://redd.it/" ++ s.id)
    else
      some (trim_to_limit s.title 256 ++ " https://redd.it/" ++ s.id)
  else
    if pyTruthyStr url then
      some (trim_to_limit s.title 256 ++ " " ++ url.getD "")
    else if !s.selftext.isEmpty then
      some (trim_to_limit (s.title ++ "\n" ++ s.selftext) 280)
    else
      none

/-- ThreadTweet.generate_text: single tweets use get_tweet_text (which can
raise, hence Option); threads of 2 or more get a "(i/N) title permalink"
caption. -/
def generate_text (cfg : BotConfig) (s : Submission) (thread_size : Nat)
    (t : ThreadTweet) : Option ThreadTweet :=
  if thread_size ≤ 1 then
    (get_tweet_text cfg s none).map (fun txt => { t with text := txt })
  else
    some { t with text :=
      trim_to_limit ("(" ++ toString (t.index + 1) ++ "/" ++
        toString thread_size ++ ") " ++ s.title) 256 ++
      " https://redd.it/" ++ s.id }

/-- The `for tweet in tweets: tweet.generate_text(...)` loop at the end of
split_tweet; a raised exception in any iteration aborts the whole call. -/
def generate_texts (cfg : BotConfig) (s : Submission) (n : Nat) :
    List ThreadTweet → Option (List ThreadTweet)
  | [] => some []
  | t :: ts =>
    match generate_text cfg s n t, generate_texts cfg s n ts with
    | some t2, some ts2 => some (t2 :: ts2)
    | _, _ => none

/-- util.py split_tweet: partition the media into tweets, then fill in the
texts once the thread size is known. -/
def split_tweet (cfg : BotConfig) (s : Submission) (media : List MediaFile) :
    Option (List ThreadTweet) :=
  let tweets := split_units media
  generate_texts cfg s tweets.length tweets

/-- A data line of the cache file: (reddit id, successful posts).  The
timestamp column and the header line are irrelevant to every lookup
(check_cache only compares the id column, and the header's id column is
the literal "reddit id", not a submission id). -/
abbrev CacheRecord := String × Nat

/-- util.py check_cache: scan the cache lines for the id; with
successful_only, also require a positive success count. -/
def check_cache (cache : List CacheRecord) (id : String)
    (successful_only : Bool) : Bool :=
  if successful_only then
    cache.any (fun r => r.1 == id && decide (0 < r.2))
  else
    cache.any (fun r => r.1 == id)

/-- util.py add_to_cache: append one line. -/
def add_to_cache (cache : List CacheRecord) (id : String) (successes : Nat) :
    List CacheRecord :=
  cache ++ [(id, successes)]

/-- util.py validate_submission: reject cached, NSFW, stickied or spoiler
submissions according to the config. -/
def validate_submission (cfg : BotConfig) (cache : List CacheRecord)
    (s : Submission) : Bool :=
  if check_cache cache s.id false then false
  else if cfg.skip_nsfw && s.over_18 then false
  else if cfg.skip_stickied && s.stickied then false
  else if cfg.skip_spoilers && s.spoiler then false
  else true

/-- The posting block of 2ootbot.py main() (lines 49-62) for one
submission: the Twitter attempt is wrapped in try/except (a failure is
logged as RepostError and adds nothing), the Discord block likewise (a
raised exception means no webhook count is returned).  The outcome of
each network call is read from the oracles; which media variant is posted
does not change the tally logic, so the oracles are keyed by submission
id.  Returns the accumulated successful_posts. -/
def processPost (cfg : BotConfig) (env : NetEnv) (s : Submission) : Nat :=
  let successful_posts := 0
  let successful_posts :=
    if cfg.post_to_twitter == true then
      if env.twitterPost s.id then successful_posts + 1 else successful_posts
    else successful_posts
  let successful_posts :=
    if cfg.post_to_discord == true && 0 < cfg.webhooks.length then
      successful_posts + (env.discordPost s.id).getD 0
    else successful_posts
  successful_posts

/-- The `for submission in posts` loop of 2ootbot.py main() (lines 41-71):
skip submissions that fail validation; on a TootbotError from get_media,
log and `continue` with the next submission; otherwise run the posting
block, write exactly one cache record (the `finally`), and `return`.
The result is (the posted submission's id and tally, if any, paired with
the list of cache records appended during the run). -/
def runMain (cfg : BotConfig) (env : NetEnv) (cache : List CacheRecord) :
    List Submission → Option (String × Nat) × List CacheRecord
  | [] => (none, [])
  | s :: rest =>
    if validate_submission cfg cache s then
      match (get_media cfg env s).1 with
      | .error _ => runMain cfg env cache rest
      | .ok _ =>
        let n := processPost cfg env s
        (some (s.id, n), [(s.id, n)])
    else
      runMain cfg env cache rest

/-- Whether a submission is the one main() ends up posting: it passes
validation and its media resolution does not raise. -/
def eligible (cfg : BotConfig) (env : NetEnv) (cache : List CacheRecord)
    (s : Submission) : Bool :=
  validate_submission cfg cache s &&
    (match (get_media cfg env s).1 with
     | .ok _ => true
     | .error _ => false)

/-! ### Concrete fixtures, used to instantiate the theorems below -/

/-- A concrete downloaded image artifact. -/
def wImg1 : MediaFile :=
  { kind := MFKind.image, url := "u1", type := "image/jpeg", filepath := none,
    twitter_id := 1, in_iteration := false }

/-- A second concrete image artifact. -/
def wImg2 : MediaFile := { wImg1 with url := "u2", twitter_id := 2 }

/-- A third concrete image artifact. -/
def wImg3 : MediaFile := { wImg1 with url := "u3", twitter_id := 3 }

/-- A concrete video artifact. -/
def wVid : MediaFile :=
  { kind := MFKind.video, url := "v1", type := "video/mp4", filepath := none,
    twitter_id := 9, in_iteration := false }

/-- A baseline configuration: media and videos enabled, no skip filters,
posting to both destinations disabled, link in main tweet. -/
def wCfg : BotConfig :=
  { get_media := true, only_get_media := false, get_videos := true,
    skip_link_posts := false, skip_nsfw := false, skip_stickied := false,
    skip_spoilers := false, post_to_twitter := false, post_to_discord := false,
    webhooks := [], link_in_main_tweet := true }

/-- A benign network environment: every download succeeds and serves
image/jpeg, probes fail, Twitter posting fails, Discord reaches nothing. -/
def wEnv : NetEnv :=
  { downloadOk := fun _ => true, contentType := fun _ => "image/jpeg",
    probe := fun _ => none, twitterPost := fun _ => false,
    discordPost := fun _ => some 0 }

/-- A concrete image submission. -/
def wSub : Submission :=
  { id := "ab1", title := "hello", selftext := "", over_18 := false,
    stickied := false, spoiler := false, is_gallery := false,
    gallery_items := [], thumbnail_height := some 1,
    domain := "i.redd.it", url := "https://i.redd.it/x.jpg" }

/-- A concrete v.redd.it video submission. -/
def wVidSub : Submission :=
  { wSub with id := "vd1", domain := "v.redd.it", url := "https://v.redd.it/y" }

/-- A concrete submission with no media (no thumbnail). -/
def wTextSub : Submission :=
  { wSub with
      id := "tx1", thumbnail_height := none, domain := "self.sub",
      url := "https://reddit.com/r/sub" }

/-- A concrete 3-item gallery submission. -/
def wGalSub : Submission :=
  { wSub with
      id := "gl1", is_gallery := true,
      gallery_items := [⟨"m1", "image/png"⟩, ⟨"m2", "image/jpeg"⟩, ⟨"m3", "image/png"⟩] }

/-- wCfg with video downloading disabled. -/
def wCfgNoVid : BotConfig := { wCfg with get_videos := false }

/-- wCfg with posting to both destinations enabled (one Discord webhook). -/
def wCfgPost : BotConfig :=
  { wCfg with post_to_twitter := true, post_to_discord := true, webhooks := ["w1"] }

/-- wEnv where Twitter posting succeeds and every Discord webhook fails
(post_to_discord returns 0 successes after logging RepostErrors). -/
def wEnvTwOk : NetEnv := { wEnv with twitterPost := fun _ => true }

/-- wCfg with link_in_main_tweet disabled. -/
def wCfgNoLink : BotConfig := { wCfg with link_in_main_tweet := false }

/-- wCfg with media fetching disabled entirely. -/
def wCfgNoMedia : BotConfig := { wCfg with get_media := false }

/-! ### Splitter invariant -/

/-- A media list free of video/GIF artifacts. -/
def noVG (l : List MediaFile) : Prop := ∀ f ∈ l, isVideoOrGif f = false

/-- A media list acceptable for one tweet: at most 4 artifacts none of
which is video/GIF, or exactly one video/GIF artifact. -/
def unitOk (l : List MediaFile) : Prop :=
  (l.length ≤ 4 ∧ noVG l) ∨ (∃ v, l = [v] ∧ isVideoOrGif v = true)

/-- Invariant of the split_tweet loop state: the tweet list is nonempty,
the index points at its last element, the media seen so far are exactly
the concatenation of the tweets' media, every tweet is within limits, and
the still-open last tweet holds at most 4 non-video artifacts. -/
def SplitInv (st : List ThreadTweet × Nat) (consumed : List MediaFile) : Prop :=
  ∃ pre lastU, st.1 = pre ++ [lastU] ∧ st.2 = pre.length ∧
    (st.1.map ThreadTweet.media).flatten = consumed ∧
    (∀ t ∈ st.1, unitOk t.media) ∧
    lastU.media.length ≤ 4 ∧ noVG lastU.media

theorem getD_append_last (pre : List ThreadTweet) (a d : ThreadTweet) :
    (pre ++ [a]).getD pre.length d = a := by
  induction pre with
  | nil => rfl
  | cons x xs ih => simp only [List.cons_append, List.length_cons, List.getD_cons_succ]; exact ih

theorem set_append_last (pre : List ThreadTweet) (a x : ThreadTweet) :
    (pre ++ [a]).set pre.length x = pre ++ [x] := by
  induction pre with
  | nil => rfl
  | cons y ys ih => simp only [List.cons_append, List.length_cons, List.set_cons_succ]; rw [ih]

theorem splitStep_inv {st : List ThreadTweet × Nat} {c : List MediaFile}
    (h : SplitInv st c) (f : MediaFile) :
    SplitInv (splitStep st f) (c ++ [f]) := by
  obtain ⟨pre, lastU, h1, h2, h3, h4, h5, h6⟩ := h
  obtain ⟨ts, i⟩ := st
  simp only at h1 h2 h3 h4
  subst h1 h2
  by_cases hvg : isVideoOrGif f = true
  · by_cases hlen : 1 ≤ lastU.media.length
    · refine ⟨pre ++ [lastU] ++ [threadTweetWith (pre.length + 1) f],
        newThreadTweet (pre.length + 2), ?_, ?_, ?_, ?_, ?_, ?_⟩
      · simp [splitStep, hvg, getD_append_last, hlen]
      · simp [splitStep, hvg, getD_append_last, hlen]
      · simp only [splitStep, hvg, getD_append_last, hlen, if_true]
        simp only [List.map_append, List.flatten_append] at h3 ⊢
        simp [← h3, threadTweetWith, newThreadTweet]
      · simp only [splitStep, hvg, getD_append_last, hlen, if_true]
        intro t ht
        rcases List.mem_append.1 ht with ht1 | ht2
        · rcases List.mem_append.1 ht1 with ht3 | ht4
          · exact h4 t ht3
          · rcases List.mem_singleton.1 ht4 with rfl
            exact Or.inr ⟨f, rfl, hvg⟩
        · rcases List.mem_singleton.1 ht2 with rfl
          exact Or.inl ⟨by simp [newThreadTweet], by intro g hg; simp [newThreadTweet] at hg⟩
      · simp [newThreadTweet]
      · intro g hg; simp [newThreadTweet] at hg
    · have hemp : lastU.media = [] := by
        cases hm : lastU.media with
        | nil => rfl
        | cons a l => rw [hm] at hlen; simp at hlen
      refine ⟨pre ++ [addMedia lastU f], newThreadTweet (pre.length + 1),
        ?_, ?_, ?_, ?_, ?_, ?_⟩
      · simp [splitStep, hvg, getD_append_last, hlen, set_append_last]
      · simp [splitStep, hvg, getD_append_last, hlen, set_append_last]
      · simp only [splitStep, hvg, getD_append_last, hlen, if_true, if_false,
          set_append_last]
        simp only [List.map_append, List.flatten_append] at h3 ⊢
        simp [← h3, addMedia, hemp, newThreadTweet]
      · simp only [splitStep, hvg, getD_append_last, hlen, if_true, if_false,
          set_append_last]
        intro t ht
        rcases List.mem_append.1 ht with ht1 | ht2
        · rcases List.mem_append.1 ht1 with ht3 | ht4
          · exact h4 t (List.mem_append.2 (Or.inl ht3))
          · rcases List.mem_singleton.1 ht4 with rfl
            exact Or.inr ⟨f, by simp [addMedia, hemp], hvg⟩
        · rcases List.mem_singleton.1 ht2 with rfl
          exact Or.inl ⟨by simp [newThreadTweet], by intro g hg; simp [newThreadTweet] at hg⟩
      · simp [newThreadTweet]
      · intro g hg; simp [newThreadTweet] at hg
  · by_cases hfull : 4 ≤ lastU.media.length
    · refine ⟨pre ++ [lastU], threadTweetWith (pre.length + 1) f, ?_, ?_, ?_, ?_, ?_, ?_⟩
      · simp [splitStep, hvg, getD_append_last, hfull]
      · simp [splitStep, hvg, getD_append_last, hfull]
      · simp only [splitStep, hvg, getD_append_last, hfull, if_true, if_false,
          Bool.false_eq_true]
        simp only [List.map_append, List.flatten_append] at h3 ⊢
        simp [← h3, threadTweetWith]
      · simp only [splitStep, hvg, getD_append_last, hfull, if_true, if_false,
          Bool.false_eq_true]
        intro t ht
        rcases List.mem_append.1 ht with ht1 | ht2
        · exact h4 t ht1
        · rcases List.mem_singleton.1 ht2 with rfl
          refine Or.inl ⟨by simp [threadTweetWith], ?_⟩
          intro g hg
          rcases (by simpa [threadTweetWith] using hg : g = f) with rfl
          simpa using hvg
      · simp [threadTweetWith]
      · intro g hg
        rcases (by simpa [threadTweetWith] using hg : g = f) with rfl
        simpa using hvg
    · refine ⟨pre, addMedia lastU f, ?_, ?_, ?_, ?_, ?_, ?_⟩
      · simp [splitStep, hvg, getD_append_last, hfull, set_append_last]
      · simp [splitStep, hvg, getD_append_last, hfull, set_append_last]
      · simp only [splitStep, hvg, getD_append_last, hfull, if_false,
          Bool.false_eq_true, set_append_last]
        simp only [List.map_append, List.flatten_append] at h3 ⊢
        simp [← h3, addMedia]
      · simp only [splitStep, hvg, getD_append_last, hfull, if_false,
          Bool.false_eq_true, set_append_last]
        intro t ht
        rcases List.mem_append.1 ht with ht1 | ht2
        · exact h4 t (List.mem_append.2 (Or.inl ht1))
        · rcases List.mem_singleton.1 ht2 with rfl
          refine Or.inl ⟨?_, ?_⟩
          · simp only [addMedia, List.length_append, List.length_singleton]
            omega
          · intro g hg
            rcases (by simpa [addMedia] using hg : g ∈ lastU.media ∨ g = f) with hg1 | rfl
            · exact h6 g hg1
            · simpa using hvg
      · simp only [addMedia, List.length_append, List.length_singleton]
        omega
      · intro g hg
        rcases (by simpa [addMedia] using hg : g ∈ lastU.media ∨ g = f) with hg1 | rfl
        · exact h6 g hg1
        · simpa using hvg

theorem splitInv_foldl :
    ∀ (media : List MediaFile) (st : List ThreadTweet × Nat) (c : List MediaFile),
      SplitInv st c → SplitInv (media.foldl splitStep st) (c ++ media)
  | [], st, c, h => by simpa using h
  | f :: ms, st, c, h => by
    have h2 := splitInv_foldl ms (splitStep st f) (c ++ [f]) (splitStep_inv h f)
    simpa using h2

theorem splitInv_init : SplitInv ([newThreadTweet 0], 0) [] := by
  refine ⟨[], newThreadTweet 0, rfl, rfl, by simp [newThreadTweet], ?_, ?_, ?_⟩
  · intro t ht
    rcases List.mem_singleton.1 ht with rfl
    exact Or.inl ⟨by simp [newThreadTweet], by intro g hg; simp [newThreadTweet] at hg⟩
  · simp [newThreadTweet]
  · intro g hg; simp [newThreadTweet] at hg

theorem split_units_inv (media : List MediaFile) :
    ((split_units media).map ThreadTweet.media).flatten = media ∧
      ∀ t ∈ split_units media, unitOk t.media := by
  have h := splitInv_foldl media ([newThreadTweet 0], 0) [] splitInv_init
  obtain ⟨pre, lastU, _, _, h3, h4, _, _⟩ := h
  exact ⟨by simpa [split_units] using h3, by simpa [split_units] using h4⟩

theorem generate_texts_media (cfg : BotConfig) (s : Submission) (n : Nat) :
    ∀ (l l2 : List ThreadTweet), generate_texts cfg s n l = some l2 →
      l2.map ThreadTweet.media = l.map ThreadTweet.media
  | [], l2, h => by
    injection h with h2
    rw [← h2]
  | t :: ts, l2, h => by
    simp only [generate_texts] at h
    cases h1 : generate_text cfg s n t with
    | none => rw [h1] at h; exact absurd h (by simp)
    | some t2 =>
      cases h2 : generate_texts cfg s n ts with
      | none => rw [h1, h2] at h; exact absurd h (by simp)
      | some ts2 =>
        rw [h1, h2] at h
        simp only [Option.some.injEq] at h
        subst h
        have ih := generate_texts_media cfg s n ts ts2 h2
        have ht2 : t2.media = t.media := by
          simp only [generate_text] at h1
          split at h1
          · cases h3 : get_tweet_text cfg s none with
            | none => rw [h3] at h1; exact absurd h1 (by simp)
            | some txt =>
              rw [h3] at h1
              injection h1 with h4
              rw [← h4]
          · simp only [Option.some.injEq] at h1
            rw [← h1]
        simp [ht2, ih]

theorem unitOk_props {l : List MediaFile} (h : unitOk l) :
    l.countP (fun f => !isVideoOrGif f) ≤ 4 ∧
      l.countP (fun f => isVideoOrGif f) ≤ 1 ∧
      ¬((∃ f ∈ l, isVideoOrGif f = true) ∧ ∃ f ∈ l, isVideoOrGif f = false) := by
  rcases h with ⟨hlen, hno⟩ | ⟨v, rfl, hv⟩
  · refine ⟨le_trans (List.countP_le_length _) hlen, ?_, ?_⟩
    · have : l.countP (fun f => isVideoOrGif f) = 0 := by
        apply List.countP_eq_zero.2
        intro a ha
        simp [hno a ha]
      omega
    · rintro ⟨⟨f, hf, hvg⟩, -⟩
      rw [hno f hf] at hvg
      cases hvg
  · refine ⟨?_, ?_, ?_⟩
    · simp [List.countP_cons, hv]
    · simp [List.countP_cons, hv]
    · rintro ⟨-, ⟨f, hf, hfalse⟩⟩
      rcases List.mem_singleton.1 hf with rfl
      rw [hv] at hfalse
      cases hfalse

theorem split_tweet_media_eq {cfg : BotConfig} {s : Submission}
    {media : List MediaFile} {ts : List ThreadTweet}
    (h : split_tweet cfg s media = some ts) :
    ts.map ThreadTweet.media = (split_units media).map ThreadTweet.media :=
  generate_texts_media cfg s (split_units media).length (split_units media) ts h

/-- C1: units returned by split_tweet concatenate back to the input media
list in order; every unit has at most 4 image artifacts, at most 1
video/GIF artifact, and never mixes images with a video/GIF artifact. -/
theorem split_tweet_partition_invariants (cfg : BotConfig) (s : Submission)
    (media : List MediaFile) (ts : List ThreadTweet)
    (h : split_tweet cfg s media = some ts) :
    (ts.map ThreadTweet.media).flatten = media ∧
      ∀ t ∈ ts,
        t.media.countP (fun f => !isVideoOrGif f) ≤ 4 ∧
        t.media.countP (fun f => isVideoOrGif f) ≤ 1 ∧
        ¬((∃ f ∈ t.media, isVideoOrGif f = true) ∧
            ∃ f ∈ t.media, isVideoOrGif f = false) := by
  have hmap := split_tweet_media_eq h
  obtain ⟨hflat, hok⟩ := split_units_inv media
  refine ⟨by rw [hmap]; exact hflat, ?_⟩
  intro t ht
  have hmem : t.media ∈ (split_units media).map ThreadTweet.media := by
    rw [← hmap]
    exact List.mem_map_of_mem ThreadTweet.media ht
  rcases List.mem_map.1 hmem with ⟨u, hu, hum⟩
  have := unitOk_props (hok u hu)
  rw [hum] at this
  exact this

/-- Witness for C1 at a concrete mixed media list (image, video, image). -/
theorem split_tweet_partition_invariants_witness :
    (([[wImg1], [wVid], [wImg2]] : List (List MediaFile)).flatten =
        [wImg1, wVid, wImg2] ∧
      ∀ t ∈ [ThreadTweet.mk 0 [wImg1] [1] "(1/3) hello https://redd.it/ab1",
             ThreadTweet.mk 1 [wVid] [9] "(2/3) hello https://redd.it/ab1",
             ThreadTweet.mk 2 [wImg2] [2] "(3/3) hello https://redd.it/ab1"],
        t.media.countP (fun f => !isVideoOrGif f) ≤ 4 ∧
        t.media.countP (fun f => isVideoOrGif f) ≤ 1 ∧
        ¬((∃ f ∈ t.media, isVideoOrGif f = true) ∧
            ∃ f ∈ t.media, isVideoOrGif f = false)) := by
  have h := split_tweet_partition_invariants wCfg wSub [wImg1, wVid, wImg2]
    [ThreadTweet.mk 0 [wImg1] [1] "(1/3) hello https://redd.it/ab1",
     ThreadTweet.mk 1 [wVid] [9] "(2/3) hello https://redd.it/ab1",
     ThreadTweet.mk 2 [wImg2] [2] "(3/3) hello https://redd.it/ab1"]
    (by decide)
  simpa using h

theorem splitStep_vg_last (st : List ThreadTweet × Nat) (f : MediaFile)
    (hv : isVideoOrGif f = true) :
    ∃ k, (splitStep st f).1.getLast? = some (newThreadTweet k) := by
  by_cases h : 1 ≤ (st.1.getD st.2 (newThreadTweet 0)).media.length
  · refine ⟨st.2 + 2, ?_⟩
    simp only [splitStep, hv, if_true, if_pos h]
    simp
  · refine ⟨st.2 + 1, ?_⟩
    simp only [splitStep, hv, if_true, if_neg h]
    simp

/-- C9: when the last artifact of a nonempty media list is a video or
GIF, the final unit returned by split_tweet carries no media at all. -/
theorem split_tweet_trailing_empty_unit (cfg : BotConfig) (s : Submission)
    (media : List MediaFile) (ts : List ThreadTweet) (v : MediaFile)
    (h : split_tweet cfg s media = some ts)
    (hl : media.getLast? = some v) (hv : isVideoOrGif v = true) :
    (ts.map ThreadTweet.media).getLast? = some [] := by
  have hne : media ≠ [] := by
    intro hnil
    rw [hnil] at hl
    cases hl
  have hdecomp : media.dropLast ++ [media.getLast hne] = media :=
    List.dropLast_append_getLast hne
  have hv2 : isVideoOrGif (media.getLast hne) = true := by
    have := List.getLast?_eq_getLast_of_ne_nil hne
    rw [hl] at this
    injection this with h2
    rw [← h2]
    exact hv
  have hlast : ∃ k, (split_units media).getLast? = some (newThreadTweet k) := by
    have hfold : split_units media =
        (splitStep ((media.dropLast).foldl splitStep ([newThreadTweet 0], 0))
          (media.getLast hne)).1 := by
      unfold split_units
      conv in media.foldl _ _ => rw [← hdecomp]
      rw [List.foldl_append]
      rfl
    rw [hfold]
    exact splitStep_vg_last _ _ hv2
  rcases hlast with ⟨k, hk⟩
  have hmap := split_tweet_media_eq h
  rw [hmap, List.getLast?_map, hk]
  rfl

/-- Witness for C9: a single-video list yields two units and the second
carries no media. -/
theorem split_tweet_trailing_empty_unit_witness :
    (([ThreadTweet.mk 0 [wVid] [9] "(1/2) hello https://redd.it/ab1",
       ThreadTweet.mk 1 [] [] "(2/2) hello https://redd.it/ab1"].map
        ThreadTweet.media).getLast? = some []) :=
  split_tweet_trailing_empty_unit wCfg wSub [wVid]
    [ThreadTweet.mk 0 [wVid] [9] "(1/2) hello https://redd.it/ab1",
     ThreadTweet.mk 1 [] [] "(2/2) hello https://redd.it/ab1"] wVid
    (by decide) (by decide) (by decide)

/-! ### Caption trimming (C2) -/

/-- C2 as written is false on the code: trim_to_limit cuts the text at
`limit - 2` characters and appends a one-character ellipsis, so a trimmed
result has length `limit - 1`, not `limit`; and for budgets below 2 the
Python negative slice even makes the result longer than the budget.
Here "abcd" under budget 3 becomes "a…" of length 2 ≠ 3, and "abc" under
budget 1 becomes "ab…" of length 3 > 1. -/
theorem trim_to_limit_budget_counterexample :
    trim_to_limit "abcd" 3 = "a…" ∧ 3 < "abcd".length ∧ "a…".length = 2 ∧
      trim_to_limit "abc" 1 = "ab…" ∧ "ab…".length = 3 := by
  refine ⟨?_, by decide, by decide, ?_, by decide⟩ <;> decide

/-- C2 amended: for every budget B ≥ 2, the result of trim_to_limit is at
most B characters long; an input longer than B is cut to its first B - 2
characters and suffixed with a single ellipsis character, for a total
length of exactly B - 1; an input of length at most B is returned
unchanged. -/
theorem trim_to_limit_budget (text : String) (limit : Int) (h : 2 ≤ limit) :
    ((trim_to_limit text limit).length : Int) ≤ limit ∧
      (limit < (text.length : Int) →
        trim_to_limit text limit =
          String.mk (text.data.take (limit - 2).toNat) ++ "…" ∧
        ((trim_to_limit text limit).length : Int) = limit - 1) ∧
      ((text.length : Int) ≤ limit → trim_to_limit text limit = text) := by
  by_cases hlt : limit < (text.length : Int)
  · have hslice : pySliceTo text.data (limit - 2) =
        text.data.take (limit - 2).toNat := by
      unfold pySliceTo
      rw [if_neg (by omega)]
    have heq : trim_to_limit text limit =
        String.mk (text.data.take (limit - 2).toNat) ++ "…" := by
      unfold trim_to_limit
      rw [if_pos hlt, hslice]
    have hlen0 : text.length = text.data.length := rfl
    have htake : (text.data.take (limit - 2).toNat).length = (limit - 2).toNat := by
      rw [List.length_take]
      omega
    have hlen : ((trim_to_limit text limit).length : Int) = limit - 1 := by
      rw [heq, String.length_append]
      have h1 : (String.mk (text.data.take (limit - 2).toNat)).length =
          (limit - 2).toNat := htake
      have h2 : ("…" : String).length = 1 := rfl
      rw [h1, h2]
      omega
    exact ⟨by omega, fun _ => ⟨heq, hlen⟩, fun hle => by omega⟩
  · have heq : trim_to_limit text limit = text := by
      unfold trim_to_limit
      rw [if_neg hlt]
    exact ⟨by rw [heq]; omega, fun hgt => absurd hgt hlt, fun _ => heq⟩

/-- Witness for the amended C2: "abcdefgh" (8 characters) under budget 5
becomes "abc…" of length 4 = 5 - 1. -/
theorem trim_to_limit_budget_witness :
    ((trim_to_limit "abcdefgh" 5).length : Int) ≤ 5 ∧
      ((5 : Int) < ("abcdefgh".length : Int) →
        trim_to_limit "abcdefgh" 5 =
          String.mk ("abcdefgh".data.take ((5 : Int) - 2).toNat) ++ "…" ∧
        ((trim_to_limit "abcdefgh" 5).length : Int) = 5 - 1) ∧
      (("abcdefgh".length : Int) ≤ 5 → trim_to_limit "abcdefgh" 5 = "abcdefgh") :=
  trim_to_limit_budget "abcdefgh" 5 (by decide)

/-! ### Caption builder totality (C3) -/

/-- C3 is refuted by the code: with link_in_main_tweet off, no external
link and no body text, util.py line 402 evaluates `trim_to_limit(text,
280)` where the local variable `text` was never assigned, so
get_tweet_text raises UnboundLocalError instead of returning a string;
the embedding returns `none` on exactly that branch.  Concretely, a
title-only submission under such a configuration hits the broken branch. -/
theorem get_tweet_text_unbound_local :
    get_tweet_text wCfgNoLink wSub none = none := by decide

/-! ### MediaFile self-iteration (C10) -/

theorem mediaFile_eta (m : MediaFile) (h : m.in_iteration = false) :
    { m with in_iteration := false } = m := by
  cases m
  simp only at h
  simp [h]

/-- C10: a MediaFile whose iteration flag is clear iterates as a
one-element sequence: the for-loop protocol yields the file itself (with
the flag transiently set) exactly once and stops, the flag ends up clear
again, and a second iteration behaves identically. -/
theorem mediaFile_iter_single (m : MediaFile) (fuel : Nat)
    (h : m.in_iteration = false) (hf : 2 ≤ fuel) :
    mediaFileIterate m fuel = ([{ m with in_iteration := true }], m) ∧
      mediaFileIterate (mediaFileIterate m fuel).2 fuel =
        ([{ m with in_iteration := true }], m) := by
  obtain ⟨k, rfl⟩ : ∃ k, fuel = k + 2 := ⟨fuel - 2, by omega⟩
  have hstep1 : mediaFileNext m =
      (some { m with in_iteration := true }, { m with in_iteration := true }) := by
    rw [mediaFileNext, if_neg (by rw [h]; simp)]
  have hstep2 : mediaFileNext { m with in_iteration := true } =
      (none, { m with in_iteration := false }) := by
    rw [mediaFileNext, if_pos rfl]
  have h1 : mediaFileIterate m (k + 2) = ([{ m with in_iteration := true }], m) := by
    show mediaFileIterate m (k + 1 + 1) = _
    simp only [mediaFileIterate, hstep1, hstep2, mediaFile_eta m h]
  exact ⟨h1, by rw [h1, h1]⟩

/-- Witness for C10 at a concrete image file with fuel 2. -/
theorem mediaFile_iter_single_witness :
    mediaFileIterate wImg1 2 = ([{ wImg1 with in_iteration := true }], wImg1) ∧
      mediaFileIterate (mediaFileIterate wImg1 2).2 2 =
        ([{ wImg1 with in_iteration := true }], wImg1) :=
  mediaFile_iter_single wImg1 2 rfl (by decide)

/-! ### The dispatcher loop (C4-C7) -/

theorem runMain_eq_find (cfg : BotConfig) (env : NetEnv) (cache : List CacheRecord) :
    ∀ feed : List Submission,
      runMain cfg env cache feed =
        match feed.find? (eligible cfg env cache) with
        | none => (none, [])
        | some s =>
          (some (s.id, processPost cfg env s), [(s.id, processPost cfg env s)])
  | [] => rfl
  | s :: rest => by
    by_cases hv : validate_submission cfg cache s
    · cases hm : (get_media cfg env s).1 with
      | error e =>
        have hne : ¬ eligible cfg env cache s = true := by
          simp [eligible, hv, hm]
        rw [List.find?_cons_of_neg rest hne]
        show (if validate_submission cfg cache s then _ else _) = _
        rw [if_pos hv]
        simp only [hm]
        exact runMain_eq_find cfg env cache rest
      | ok m =>
        have he : eligible cfg env cache s = true := by
          simp [eligible, hv, hm]
        rw [List.find?_cons_of_pos rest he]
        show (if validate_submission cfg cache s then _ else _) = _
        rw [if_pos hv]
        simp only [hm]
    · have hne : ¬ eligible cfg env cache s = true := by
        simp [eligible, hv]
      rw [List.find?_cons_of_neg rest hne]
      show (if validate_submission cfg cache s then _ else _) = _
      rw [if_neg hv]
      exact runMain_eq_find cfg env cache rest

/-- C4 as written is false on the code: main() reacts to a TootbotError
from get_media with `continue`, not `return`, so after the first
validated post fails media resolution with InvalidSubmissionError, a
later candidate of the same fetched batch is still processed in the same
run.  Concretely: a feed of a video post (video downloading disabled, so
get_media raises InvalidSubmissionError) followed by a text post ends
with the text post posted and cached in that same run. -/
theorem runMain_continues_counterexample :
    validate_submission wCfgNoVid [] wVidSub = true ∧
      resultInvalidSub (get_media wCfgNoVid wEnv wVidSub).1 = true ∧
      runMain wCfgNoVid wEnv [] [wVidSub, wTextSub] =
        (some ("tx1", 0), [("tx1", 0)]) := by
  refine ⟨by decide, by decide, by decide⟩

/-- C4 amended: per invocation at most one post is posted, namely the
first feed entry that both passes validation and whose media resolution
succeeds; a media-resolution failure (InvalidSubmissionError or any other
TootbotError) skips that entry without writing a cache record and the
loop continues with later candidates of the same batch; once a post is
posted, exactly one cache record is written and the run returns. -/
theorem runMain_posts_first_eligible (cfg : BotConfig) (env : NetEnv)
    (cache : List CacheRecord) (feed : List Submission) :
    runMain cfg env cache feed =
      match feed.find? (eligible cfg env cache) with
      | none => (none, [])
      | some s =>
        (some (s.id, processPost cfg env s), [(s.id, processPost cfg env s)]) :=
  runMain_eq_find cfg env cache feed

/-- C5: a post on the video host domain with video fetching disabled
makes get_media raise InvalidSubmissionError without downloading
anything, and the run over that post writes no cache record at all. -/
theorem video_disabled_invalid_submission (cfg : BotConfig) (env : NetEnv)
    (cache : List CacheRecord) (s : Submission)
    (h1 : s.is_gallery = false) (h2 : thumbnailTruthy s.thumbnail_height = true)
    (h3 : s.domain = "v.redd.it") (h4 : cfg.get_videos = false) :
    resultInvalidSub (get_media cfg env s).1 = true ∧
      (get_media cfg env s).2 = [] ∧
      runMain cfg env cache [s] = (none, []) := by
  have herr : ∃ msg, get_media cfg env s = (.error (.invalidSubmission msg), []) := by
    by_cases hg : cfg.get_media = true
    · refine ⟨"Submission " ++ s.id ++
        " is a video. Video downloading is disabled in the config. Skipping", ?_⟩
      simp [get_media, h1, h2, h3, h4, hg]
    · refine ⟨"Submission " ++ s.id ++
        " contains media. Media is disabled in the config. Skipping", ?_⟩
      have hg2 : cfg.get_media = false := by
        cases hgm : cfg.get_media
        · rfl
        · exact absurd hgm hg
      simp [get_media, h1, h2, hg2]
  obtain ⟨msg, heq⟩ := herr
  refine ⟨by rw [heq]; rfl, by rw [heq], ?_⟩
  by_cases hv : validate_submission cfg cache s
  · show (if validate_submission cfg cache s then _ else _) = _
    rw [if_pos hv]
    have : (get_media cfg env s).1 = .error (.invalidSubmission msg) := by rw [heq]
    simp only [this]
    rfl
  · show (if validate_submission cfg cache s then _ else _) = _
    rw [if_neg hv]
    rfl

/-- Witness for C5 at a concrete v.redd.it submission with videos
disabled in the configuration. -/
theorem video_disabled_invalid_submission_witness :
    resultInvalidSub (get_media wCfgNoVid wEnv wVidSub).1 = true ∧
      (get_media wCfgNoVid wEnv wVidSub).2 = [] ∧
      runMain wCfgNoVid wEnv [] [wVidSub] = (none, []) :=
  video_disabled_invalid_submission wCfgNoVid wEnv [] wVidSub rfl rfl rfl rfl

/-- C6: once a validated post's media resolution succeeds, the run posts
to the destinations independently, never aborts, and writes exactly one
cache record carrying the accumulated success tally: the Twitter attempt
contributes 1 exactly when it is enabled and succeeds (a failure is
caught, logged as RepostError and contributes 0), and the Discord block
contributes its webhook success count (an escaped exception is caught
and contributes 0). -/
theorem posting_failures_isolated (cfg : BotConfig) (env : NetEnv)
    (cache : List CacheRecord) (s : Submission) (rest : List Submission)
    (m : MediaResult) (hv : validate_submission cfg cache s = true)
    (hm : (get_media cfg env s).1 = .ok m) :
    runMain cfg env cache (s :: rest) =
      (some (s.id, processPost cfg env s), [(s.id, processPost cfg env s)]) ∧
      processPost cfg env s =
        (if cfg.post_to_twitter && env.twitterPost s.id then 1 else 0) +
          (if cfg.post_to_discord && 0 < cfg.webhooks.length then
            (env.discordPost s.id).getD 0 else 0) := by
  constructor
  · show (if validate_submission cfg cache s then _ else _) = _
    rw [if_pos hv]
    simp only [hm]
  · simp only [processPost]
    cases ht : cfg.post_to_twitter <;>
      cases htw : env.twitterPost s.id <;>
        cases hd : cfg.post_to_discord <;>
          by_cases hw : 0 < cfg.webhooks.length <;>
            simp [ht, htw, hd, hw]

/-- Witness for C6 in the scenario of the claim: Twitter (destination A)
succeeds, every Discord webhook (destination B) fails with RepostError,
so the single cache record carries success count 1. -/
theorem posting_failures_isolated_witness :
    runMain wCfgPost wEnvTwOk [] [wTextSub] =
      (some ("tx1", 1), [("tx1", 1)]) ∧
      processPost wCfgPost wEnvTwOk wTextSub =
        (if wCfgPost.post_to_twitter && wEnvTwOk.twitterPost "tx1" then 1 else 0) +
          (if wCfgPost.post_to_discord && 0 < wCfgPost.webhooks.length then
            (wEnvTwOk.discordPost "tx1").getD 0 else 0) := by
  have h := posting_failures_isolated wCfgPost wEnvTwOk [] wTextSub []
    MediaResult.noMedia (by decide) (by rfl)
  exact ⟨h.1.trans (by rfl), h.2⟩

theorem validate_not_cached {cfg : BotConfig} {cache : List CacheRecord}
    {s : Submission} (h : validate_submission cfg cache s = true) :
    check_cache cache s.id false = false := by
  cases hc : check_cache cache s.id false
  · rfl
  · rw [validate_submission, if_pos hc] at h
    cases h

/-- C7: after a run posts a submission, its id is in the cache, and any
later run over any feed never posts that id again, because
validate_submission rejects every id that has a cache record. -/
theorem cached_never_reposted (cfg : BotConfig) (env : NetEnv)
    (cache : List CacheRecord) (feed : List Submission) (sid : String)
    (n : Nat) (w : List CacheRecord)
    (h : runMain cfg env cache feed = (some (sid, n), w)) :
    check_cache (cache ++ w) sid false = true ∧
      ∀ (feed2 : List Submission) (m : Nat),
        (runMain cfg env (cache ++ w) feed2).1 ≠ some (sid, m) := by
  have hchar := runMain_eq_find cfg env cache feed
  rw [h] at hchar
  have hcached : check_cache (cache ++ w) sid false = true := by
    cases hf : feed.find? (eligible cfg env cache) with
    | none =>
      rw [hf] at hchar
      simp at hchar
    | some s =>
      rw [hf] at hchar
      have hid : sid = s.id := by
        have h1 := congrArg Prod.fst hchar
        simp only [Option.some.injEq, Prod.mk.injEq] at h1
        exact h1.1
      have hw : w = [(s.id, processPost cfg env s)] := congrArg Prod.snd hchar
      subst hid
      rw [hw]
      simp [check_cache, List.any_append]
  refine ⟨hcached, ?_⟩
  intro feed2 m hcontra
  have hchar2 := runMain_eq_find cfg env (cache ++ w) feed2
  cases hf2 : feed2.find? (eligible cfg env (cache ++ w)) with
  | none =>
    rw [hf2] at hchar2
    rw [hchar2] at hcontra
    simp at hcontra
  | some s2 =>
    rw [hf2] at hchar2
    rw [hchar2] at hcontra
    simp only [Option.some.injEq, Prod.mk.injEq] at hcontra
    have hid2 : s2.id = sid := hcontra.1
    have helig : eligible cfg env (cache ++ w) s2 = true := List.find?_some hf2
    have hval : validate_submission cfg (cache ++ w) s2 = true := by
      rw [eligible, Bool.and_eq_true] at helig
      exact helig.1
    have hnotc : check_cache (cache ++ w) s2.id false = false :=
      validate_not_cached hval
    rw [hid2, hcached] at hnotc
    cases hnotc

/-- Witness for C7: after a run posts submission tx1, its id is cached
and an immediate re-run over the same feed does not post it again. -/
theorem cached_never_reposted_witness :
    check_cache ([] ++ [("tx1", 0)]) "tx1" false = true ∧
      (runMain wCfg wEnv ([] ++ [("tx1", 0)]) [wTextSub]).1 ≠ some ("tx1", 0) := by
  have h := cached_never_reposted wCfg wEnv [] [wTextSub] "tx1" 0 [("tx1", 0)]
    (by decide)
  exact ⟨h.1, h.2 [wTextSub] 0⟩

/-! ### Gallery resolution (C8) -/

theorem downloadGallery_ok (env : NetEnv) :
    ∀ items : List GalleryItem,
      (∀ it ∈ items, env.downloadOk (galleryUrl it) = true) →
      downloadGallery env items =
        (.ok (items.map (galleryImage env)), items.map galleryUrl)
  | [], _ => rfl
  | it :: rest, h => by
    have hhd : env.downloadOk (galleryUrl it) = true := h it (by simp)
    have htl := downloadGallery_ok env rest (fun x hx => h x (by simp [hx]))
    rw [downloadGallery, if_pos hhd, htl]
    rfl

theorem split_units_three (a b c : MediaFile) (ha : isVideoOrGif a = false)
    (hb : isVideoOrGif b = false) (hc : isVideoOrGif c = false) :
    split_units [a, b, c] =
      [⟨0, [a, b, c], [a.twitter_id, b.twitter_id, c.twitter_id], ""⟩] := by
  simp [split_units, splitStep, ha, hb, hc, addMedia, newThreadTweet]

/-- C8: resolving a gallery post yields one downloaded ImageArtifact per
gallery item, in the original order (when media fetching is enabled and
the downloads succeed); with media fetching disabled it fails with
InvalidSubmissionError before any download event; and a 3-image media
list goes through the splitter as exactly one unit holding all 3 in
order. -/
theorem gallery_resolution (cfg : BotConfig) (env : NetEnv) (s : Submission)
    (hg : s.is_gallery = true) :
    (∀ cfgOff : BotConfig, cfgOff.get_media = false →
      resultInvalidSub (get_media cfgOff env s).1 = true ∧
        (get_media cfgOff env s).2 = []) ∧
      (cfg.get_media = true →
        (∀ it ∈ s.gallery_items, env.downloadOk (galleryUrl it) = true) →
        get_media cfg env s =
          (.ok (.multiple (s.gallery_items.map (galleryImage env))),
            s.gallery_items.map galleryUrl)) ∧
      (∀ (cfg2 : BotConfig) (s2 : Submission) (fs : List MediaFile)
          (ts : List ThreadTweet), fs.length = 3 →
        (∀ f ∈ fs, isVideoOrGif f = false) →
        split_tweet cfg2 s2 fs = some ts →
        ts.map ThreadTweet.media = [fs]) := by
  refine ⟨?_, ?_, ?_⟩
  · intro cfgOff hm
    constructor
    · simp [get_media, hg, hm, resultInvalidSub, TbError.isInvalidSub]
    · simp [get_media, hg, hm]
  · intro hm hdl
    rw [get_media]
    rw [if_pos (by rw [hg]), if_neg (by rw [hm]; simp)]
    rw [downloadGallery_ok env s.gallery_items hdl]
  · intro cfg2 s2 fs ts hlen hno hsplit
    obtain ⟨a, b, c, rfl⟩ := List.length_eq_three.1 hlen
    have hunits := split_units_three a b c (hno a (by simp)) (hno b (by simp))
      (hno c (by simp))
    have hmap := split_tweet_media_eq hsplit
    rw [hmap, hunits]
    rfl

/-- Witness for C8 at a concrete 3-item gallery submission: three
ImageArtifacts come back in gallery order, the media-disabled run raises
InvalidSubmissionError with no downloads, and the splitter packs the
three into one unit. -/
theorem gallery_resolution_witness :
    (resultInvalidSub (get_media wCfgNoMedia wEnv wGalSub).1 = true ∧
      (get_media wCfgNoMedia wEnv wGalSub).2 = []) ∧
      get_media wCfg wEnv wGalSub =
        (.ok (.multiple (wGalSub.gallery_items.map (galleryImage wEnv))),
          wGalSub.gallery_items.map galleryUrl) ∧
      ([ThreadTweet.mk 0 [wImg1, wImg2, wImg3] [1, 2, 3]
          "hello https://redd.it/ab1"].map ThreadTweet.media =
        [[wImg1, wImg2, wImg3]]) := by
  have h := gallery_resolution wCfg wEnv wGalSub rfl
  exact ⟨h.1 wCfgNoMedia rfl, h.2.1 rfl (by decide),
    h.2.2 wCfg wSub [wImg1, wImg2, wImg3]
      [ThreadTweet.mk 0 [wImg1, wImg2, wImg3] [1, 2, 3]
        "hello https://redd.it/ab1"] (by decide) (by decide) (by decide)⟩

end Tootbot
